import Mathlib

/-!
Shallow embedding of the connection-management, response-streaming and
document-reading core of the Streamlit/Ollama front end
(src/streamlit-example-1.py), together with theorems settling the spec
claims about it.

External effects (the Ollama HTTP client, the Python UTF-8 decoder, the
PyPDF2 parser) are modelled by an explicit oracle `Env`; the Streamlit
session state is an explicit `SessionState` record threaded through the
functions.  Each embedded function mirrors the corresponding Python
function line by line.
-/

/-- Oracle for the external world: whether creating a client for a host and
running `client.show(model)` succeeds, the exception text when it fails,
the Python `bytes.decode` in UTF-8 mode (`none` = raises), the exception text of a
failed decode, and PyPDF2 parsing: `.error` = `PdfReader` itself raises,
`.ok pages` = a reader with one entry per page, where a page entry `.error`
means `extract_text()` raises on that page. -/
structure Env where
  showOk : String → String → Bool
  showErr : String → String → String
  decodeUtf8 : List Nat → Option String
  decodeErr : List Nat → String
  pdfParse : List Nat → Except String (List (Except String String))

/-- The process-wide Streamlit session state used by the core
(`st.session_state.ollama_host`, `.ollama_model`, `.ollama_client`,
`.connection_status`, `.last_successful_config`).  A client handle is
modelled by the host it was created with (`Client(host=...)`). -/
structure SessionState where
  ollama_host : String
  ollama_model : String
  ollama_client : Option String
  connection_status : String
  last_successful_config : Option (String × String)
deriving Repr, DecidableEq

/-- Embedding of `initialize_ollama_client(host, model)`: creates a client
and calls `client.show(model)`; returns `(True, None)` on success and
`(False, "Unexpected error: " + str(e))` when either step raises. -/
def initialize_ollama_client (env : Env) (host model : String) :
    Bool × Option String :=
  if env.showOk host model then
    (true, none)
  else
    (false, some ("Unexpected error: " ++ env.showErr host model))

/-- Embedding of `update_connection()`: probes the current configuration via
`initialize_ollama_client`; on success stores a fresh client handle, sets
status `"Connected"` and records the last successful configuration; on
failure discards the client and sets status `"Connection Failed: <error>"`. -/
def update_connection (env : Env) (s : SessionState) : SessionState :=
  match initialize_ollama_client env s.ollama_host s.ollama_model with
  | (true, _) =>
      { s with
        ollama_client := some s.ollama_host
        connection_status := "Connected"
        last_successful_config := some (s.ollama_host, s.ollama_model) }
  | (false, error) =>
      { s with
        ollama_client := none
        connection_status := "Connection Failed: " ++ error.getD "" }

/-- Embedding of the sidebar Connect button handler: stores the new host and
model into the session state, then runs `update_connection()`.  This is the
spec action `connect(host, model)`. -/
def connect (env : Env) (s : SessionState) (new_host new_model : String) :
    SessionState :=
  update_connection env
    { s with ollama_host := new_host, ollama_model := new_model }

/-- One streaming-generate request as passed to `client.generate(...)`:
`model=...`, `prompt=...`, `system=... if system_prompt else None`,
`stream=True`. -/
structure GenRequest where
  model : String
  prompt : String
  system : Option String
  stream : Bool
deriving Repr, DecidableEq

/-- Behaviour of the generation stream of the server for one request: `ok chunks`
is a stream that yields the given chunks then ends normally; `err chunks e`
yields the given chunks and then raises an exception with text `e`
(`err [] e` models the `generate` call itself raising).  A chunk is `some t`
when it has a `response` field with text `t`, `none` otherwise. -/
inductive StreamOutcome where
  | ok : List (Option String) → StreamOutcome
  | err : List (Option String) → String → StreamOutcome
deriving Repr, DecidableEq

/-- The accumulation loop of `generate_ollama_response`: starting from
accumulator `acc`, for each chunk with a `response` field append its text and
record the updated accumulator (the `response_container.markdown` call). -/
def accumYields (acc : String) : List (Option String) → List String
  | [] => []
  | none :: rest => accumYields acc rest
  | some r :: rest => (acc ++ r) :: accumYields (acc ++ r) rest

/-- Observable outcome of one `generate_ollama_response` call: the successive
accumulated texts rendered to the response container, the `st.warning` and
`st.error` messages if any, the request sent to the client (if the
`generate` call was reached), how many times `generate` was invoked, how
many times `update_connection` was invoked, and the resulting session
state. -/
structure GenResult where
  yields : List String
  warning : Option String
  error : Option String
  request : Option GenRequest
  genCalls : Nat
  reconnects : Nat
  finalState : SessionState
deriving Repr, DecidableEq

/-- Embedding of `generate_ollama_response(user_prompt, system_prompt)`:
an empty user prompt warns and returns before anything else; with no client
in the session state, `None.generate` raises an `AttributeError` which the
`except` block catches (error + reconnect); otherwise the streaming call is
issued and chunks are accumulated; any exception while consuming the stream
is caught, reported via `st.error`, and followed by one
`update_connection()` call. -/
def generate_ollama_response (env : Env) (stream : StreamOutcome)
    (s : SessionState) (user_prompt system_prompt : String) : GenResult :=
  if user_prompt = "" then
    { yields := []
      warning := some "Please enter a prompt before generating."
      error := none
      request := none
      genCalls := 0
      reconnects := 0
      finalState := s }
  else
    match s.ollama_client with
    | none =>
        { yields := []
          warning := none
          error := some
            "An error occurred while generating: \x27NoneType\x27 object has no attribute \x27generate\x27"
          request := none
          genCalls := 0
          reconnects := 1
          finalState := update_connection env s }
    | some _ =>
        let req : GenRequest :=
          { model := s.ollama_model
            prompt := user_prompt
            system := if system_prompt = "" then none else some system_prompt
            stream := true }
        match stream with
        | .ok chunks =>
            { yields := accumYields "" chunks
              warning := none
              error := none
              request := some req
              genCalls := 1
              reconnects := 0
              finalState := s }
        | .err chunks e =>
            { yields := accumYields "" chunks
              warning := none
              error := some ("An error occurred while generating: " ++ e)
              request := some req
              genCalls := 1
              reconnects := 1
              finalState := update_connection env s }

/-- The fixed plain-text extension allow-list of `read_document_content`. -/
def text_extensions : List String :=
  [".txt", ".md", ".js", ".py", ".cs", ".go", ".html", ".css", ".xml", ".json"]

/-- Last index of character `c` in `l` (the Python `str.rfind`), `none` when
absent. -/
def rfindIdx (c : Char) (l : List Char) : Option Nat :=
  (l.reverse.findIdx? (fun x => x = c)).map (fun i => l.length - 1 - i)

/-- Embedding of `os.path.splitext` (posix): split off the extension at the
last dot of the basename, unless every character of the basename before that
dot is itself a dot (so `".bashrc"` has no extension). -/
def splitext (p : String) : String × String :=
  let l := p.toList
  let sepB : Nat :=
    match rfindIdx '/' l with
    | none => 0
    | some si => si + 1
  match rfindIdx '.' l with
  | none => (p, "")
  | some d =>
      if sepB ≤ d then
        if (List.range' sepB (d - sepB)).any (fun k => l.getD k '.' ≠ '.') then
          (String.mk (l.take d), String.mk (l.drop d))
        else
          (p, "")
      else
        (p, "")

/-- ASCII lowercasing of a string, character by character (the effect of
the Python `str.lower` method on the ASCII extension strings involved here). -/
def lowerStr (s : String) : String :=
  String.mk (s.toList.map Char.toLower)

/-- The lowercased extension by which `read_document_content` classifies a
file: `os.path.splitext(name)[1].lower()`. -/
def lowerExt (name : String) : String :=
  lowerStr (splitext name).2

/-- Outcome of one `read_document_content` call: the returned text (if any),
the `st.error` message (if any) and the `st.warning` message (if any). -/
structure ReadResult where
  text : Option String
  errorMsg : Option String
  warningMsg : Option String
deriving Repr, DecidableEq

/-- The PDF page loop of `read_document_content`: `text += page.extract_text()`
over the pages in order; the first page whose extraction raises aborts the
whole loop with that exception. -/
def extractPages (acc : String) : List (Except String String) → Except String String
  | [] => .ok acc
  | .ok t :: rest => extractPages (acc ++ t) rest
  | .error e :: _ => .error e

/-- The warning text emitted for an unsupported extension:
`"Unsupported file type. Please upload TXT, PDF, MD, or code files "`
followed by the tail of `text_extensions` past its first two entries,
joined with comma-space, in parentheses. -/
def unsupportedMsg : String :=
  "Unsupported file type. Please upload TXT, PDF, MD, or code files ("
    ++ String.intercalate ", " (text_extensions.drop 2) ++ ")."

/-- The branch body of `read_document_content`, as a function of the already
lowercased extension. -/
def readByExt (env : Env) (file_extension : String) (rawBytes : List Nat) :
    ReadResult :=
  if file_extension ∈ text_extensions then
    match env.decodeUtf8 rawBytes with
    | some s => { text := some s, errorMsg := none, warningMsg := none }
    | none =>
        { text := none
          errorMsg := some ("Error reading text-based content: "
            ++ env.decodeErr rawBytes)
          warningMsg := none }
  else if file_extension = ".pdf" then
    match env.pdfParse rawBytes with
    | .error e =>
        { text := none
          errorMsg := some ("Error reading PDF content: " ++ e)
          warningMsg := none }
    | .ok pages =>
        match extractPages "" pages with
        | .ok t => { text := some t, errorMsg := none, warningMsg := none }
        | .error e =>
            { text := none
              errorMsg := some ("Error reading PDF content: " ++ e)
              warningMsg := none }
  else
    { text := none, errorMsg := none, warningMsg := some unsupportedMsg }

/-- Embedding of `read_document_content(uploaded_file)`: classify by the
lowercased extension of the file name, then decode text, parse PDF, or warn
about an unsupported type. -/
def read_document_content (env : Env) (name : String) (rawBytes : List Nat) :
    ReadResult :=
  readByExt env (lowerExt name) rawBytes

/-- Test whether the char list `n` is an initial segment of `h`. -/
def startsWithList : List Char → List Char → Bool
  | [], _ => true
  | _ :: _, [] => false
  | a :: as, b :: bs => a == b && startsWithList as bs

/-- Test whether the char list `n` occurs contiguously inside `h`. -/
def containsSub (n : List Char) : List Char → Bool
  | [] => startsWithList n []
  | h :: t => startsWithList n (h :: t) || containsSub n t

/-- The name of an extension without its leading dot (`".txt"` ↦ `"txt"`). -/
def extName (e : String) : String :=
  String.mk (e.toList.drop 1)

/-- A concrete environment for witness instantiations: connection probes
fail with text `"boom"`, decoding and PDF parsing fail. -/
def testEnvDown : Env :=
  { showOk := fun _ _ => false
    showErr := fun _ _ => "boom"
    decodeUtf8 := fun _ => none
    decodeErr := fun _ => "bad byte"
    pdfParse := fun _ => .error "bad pdf" }

/-- A concrete environment for witness instantiations: connection probes
succeed, decoding yields `"hello"`, PDF parsing yields two pages. -/
def testEnvUp : Env :=
  { showOk := fun _ _ => true
    showErr := fun _ _ => ""
    decodeUtf8 := fun _ => some "hello"
    decodeErr := fun _ => ""
    pdfParse := fun _ => .ok [.ok "page one ", .ok "page two"] }

/-- A concrete connected session state for witness instantiations. -/
def testState : SessionState :=
  { ollama_host := "http://localhost:11434"
    ollama_model := "llama3.2"
    ollama_client := some "http://localhost:11434"
    connection_status := "Connected"
    last_successful_config := some ("http://localhost:11434", "llama3.2") }

theorem join_eq_foldl (l : List String) : String.join l = l.foldl (· ++ ·) "" := rfl

theorem accumYields_length : ∀ (chunks : List (Option String)) (a : String),
    (accumYields a chunks).length = (chunks.filterMap id).length := by
  intro chunks
  induction chunks with
  | nil => intro a; rfl
  | cons ch rest ih =>
    intro a
    cases ch with
    | none => simp [accumYields, ih a, List.filterMap_cons]
    | some r => simp [accumYields, ih (a ++ r), List.filterMap_cons]

theorem accumYields_getD : ∀ (chunks : List (Option String)) (a : String) (i : Nat),
    i < (chunks.filterMap id).length →
    (accumYields a chunks).getD i "" =
      ((chunks.filterMap id).take (i + 1)).foldl (· ++ ·) a := by
  intro chunks
  induction chunks with
  | nil => intro a i h; simp at h
  | cons ch rest ih =>
    intro a i h
    cases ch with
    | none =>
      simp only [List.filterMap_cons, id] at h ⊢
      simpa [accumYields] using ih a i h
    | some r =>
      cases i with
      | zero => simp [accumYields, List.filterMap_cons]
      | succ j =>
        simp only [List.filterMap_cons, id, List.length_cons] at h
        simpa [accumYields, List.filterMap_cons] using ih (a ++ r) j (by omega)

theorem extractPages_all_ok : ∀ (texts : List String) (a : String),
    extractPages a (texts.map Except.ok) = .ok (texts.foldl (· ++ ·) a) := by
  intro texts
  induction texts with
  | nil => intro a; rfl
  | cons t rest ih => intro a; simp [extractPages, ih]

theorem extractPages_stops_at_error :
    ∀ (pre : List String) (a e : String) (post : List (Except String String)),
      extractPages a (pre.map Except.ok ++ Except.error e :: post) = .error e := by
  intro pre
  induction pre with
  | nil => intro a e post; rfl
  | cons t rest ih => intro a e post; simp [extractPages, ih]

theorem str_append_ne_empty (s t : String) (h : s.data ≠ []) : s ++ t ≠ "" := by
  intro he
  apply h
  have hd := congrArg String.data he
  simp at hd
  exact hd.1

/-- Claim C7: for every empty user prompt, `generate_ollama_response` returns
early with only a warning — no request is built, the `generate` call is never
reached, no reconnect happens and the session state is untouched, regardless
of the environment, the stream behaviour and the system prompt. -/
theorem generate_empty_prompt_no_call (env : Env) (stream : StreamOutcome)
    (s : SessionState) (sp : String) :
    generate_ollama_response env stream s "" sp =
      { yields := []
        warning := some "Please enter a prompt before generating."
        error := none
        request := none
        genCalls := 0
        reconnects := 0
        finalState := s } := by
  simp [generate_ollama_response]

/-- Claim C2: whenever the connection probe for the stored (host, model)
configuration fails, `initialize_ollama_client` catches the exception and
returns success=false with a non-empty error message, and `update_connection`
sets the connection status to Failed with that message and discards any
existing client handle, whatever the previous state was. -/
theorem connect_failure_caught_and_disconnects (env : Env) (s : SessionState)
    (h : env.showOk s.ollama_host s.ollama_model = false) :
    ∃ msg : String,
      initialize_ollama_client env s.ollama_host s.ollama_model = (false, some msg) ∧
      msg ≠ "" ∧
      (update_connection env s).connection_status = "Connection Failed: " ++ msg ∧
      (update_connection env s).ollama_client = none := by
  refine ⟨"Unexpected error: " ++ env.showErr s.ollama_host s.ollama_model, ?_, ?_, ?_, ?_⟩
  · simp [initialize_ollama_client, h]
  · exact str_append_ne_empty _ _ (by decide)
  · simp [update_connection, initialize_ollama_client, h]
  · simp [update_connection, initialize_ollama_client, h]

theorem connect_failure_caught_and_disconnects_witness :
    testEnvDown.showOk testState.ollama_host testState.ollama_model = false ∧
    (∃ msg : String,
      initialize_ollama_client testEnvDown testState.ollama_host testState.ollama_model
          = (false, some msg) ∧
      msg ≠ "" ∧
      (update_connection testEnvDown testState).connection_status
          = "Connection Failed: " ++ msg ∧
      (update_connection testEnvDown testState).ollama_client = none) :=
  ⟨rfl, connect_failure_caught_and_disconnects testEnvDown testState rfl⟩

/-- Claim C8: whenever the connection probe for (host, model) succeeds,
`initialize_ollama_client` returns success=true, and the connect action
stores the new configuration as the process-wide one, stores a fresh client
handle (replacing any old one), sets the status to Connected and records the
last successful configuration. -/
theorem connect_success_connects (env : Env) (s : SessionState) (host model : String)
    (h : env.showOk host model = true) :
    initialize_ollama_client env host model = (true, none) ∧
    connect env s host model =
      { ollama_host := host
        ollama_model := model
        ollama_client := some host
        connection_status := "Connected"
        last_successful_config := some (host, model) } := by
  constructor
  · simp [initialize_ollama_client, h]
  · simp [connect, update_connection, initialize_ollama_client, h]

theorem connect_success_connects_witness :
    testEnvUp.showOk "http://h:1" "m" = true ∧
    (initialize_ollama_client testEnvUp "http://h:1" "m" = (true, none) ∧
      connect testEnvUp testState "http://h:1" "m" =
        { ollama_host := "http://h:1"
          ollama_model := "m"
          ollama_client := some "http://h:1"
          connection_status := "Connected"
          last_successful_config := some ("http://h:1", "m") }) :=
  ⟨rfl, connect_success_connects testEnvUp testState "http://h:1" "m" rfl⟩

/-- Claim C1: if the generation stream raises at any point, the caller gets
the error as a reported message, `update_connection` is invoked exactly once
(re-probing the process-wide host and model), the failed `generate` call is
issued exactly once (not retried), and the error never escapes: the call
still returns an ordinary result. -/
theorem generate_streamError_reports_and_reconnects_once (env : Env)
    (s : SessionState) (c : String) (chunks : List (Option String))
    (e up sp : String) (hup : up ≠ "") (hc : s.ollama_client = some c) :
    (generate_ollama_response env (.err chunks e) s up sp).error =
        some ("An error occurred while generating: " ++ e) ∧
    (generate_ollama_response env (.err chunks e) s up sp).reconnects = 1 ∧
    (generate_ollama_response env (.err chunks e) s up sp).genCalls = 1 ∧
    (generate_ollama_response env (.err chunks e) s up sp).finalState =
        update_connection env s ∧
    (generate_ollama_response env (.err chunks e) s up sp).finalState.connection_status =
        (if env.showOk s.ollama_host s.ollama_model then "Connected"
         else "Connection Failed: "
            ++ ("Unexpected error: " ++ env.showErr s.ollama_host s.ollama_model)) := by
  refine ⟨?_, ?_, ?_, ?_, ?_⟩ <;>
    simp [generate_ollama_response, hup, hc, update_connection, initialize_ollama_client]
  cases henv : env.showOk s.ollama_host s.ollama_model <;> simp [henv]

theorem generate_streamError_reports_and_reconnects_once_witness :
    (" " : String) ≠ "" ∧
    testState.ollama_client = some "http://localhost:11434" ∧
    ((generate_ollama_response testEnvDown (.err [some "He"] "conn reset") testState " " "sys").error =
        some ("An error occurred while generating: " ++ "conn reset") ∧
     (generate_ollama_response testEnvDown (.err [some "He"] "conn reset") testState " " "sys").reconnects = 1 ∧
     (generate_ollama_response testEnvDown (.err [some "He"] "conn reset") testState " " "sys").genCalls = 1 ∧
     (generate_ollama_response testEnvDown (.err [some "He"] "conn reset") testState " " "sys").finalState =
        update_connection testEnvDown testState ∧
     (generate_ollama_response testEnvDown (.err [some "He"] "conn reset") testState " " "sys").finalState.connection_status =
        (if testEnvDown.showOk testState.ollama_host testState.ollama_model then "Connected"
         else "Connection Failed: "
            ++ ("Unexpected error: "
              ++ testEnvDown.showErr testState.ollama_host testState.ollama_model))) :=
  ⟨by decide, rfl,
    generate_streamError_reports_and_reconnects_once testEnvDown testState
      "http://localhost:11434" [some "He"] "conn reset" " " "sys" (by decide) rfl⟩

/-- Claim C3: for every sequence of incoming chunks, `generate_ollama_response`
yields one value per chunk carrying a response field, and the i-th yielded
value is the concatenation of the first i+1 response texts — the full
accumulated text so far, not the delta; chunks without a response field
contribute nothing. -/
theorem generate_yields_accumulated_text (env : Env) (s : SessionState)
    (c : String) (chunks : List (Option String)) (up sp : String)
    (hup : up ≠ "") (hc : s.ollama_client = some c) :
    (generate_ollama_response env (.ok chunks) s up sp).yields.length =
        (chunks.filterMap id).length ∧
    ∀ i, i < (chunks.filterMap id).length →
      (generate_ollama_response env (.ok chunks) s up sp).yields.getD i "" =
        String.join ((chunks.filterMap id).take (i + 1)) := by
  have hy : (generate_ollama_response env (.ok chunks) s up sp).yields =
      accumYields "" chunks := by
    simp [generate_ollama_response, hup, hc]
  rw [hy]
  refine ⟨accumYields_length chunks "", fun i hi => ?_⟩
  rw [accumYields_getD chunks "" i hi, join_eq_foldl]

theorem generate_yields_accumulated_text_witness :
    (" " : String) ≠ "" ∧
    testState.ollama_client = some "http://localhost:11434" ∧
    (generate_ollama_response testEnvUp (.ok [some "Hel", none, some "lo"]) testState " " "sys").yields.getD 1 "" =
      String.join (([some "Hel", none, some "lo"].filterMap id).take 2) ∧
    (generate_ollama_response testEnvUp (.ok [some "Hel", none, some "lo"]) testState " " "sys").yields =
      ["Hel", "Hello"] :=
  ⟨by decide, rfl,
    (generate_yields_accumulated_text testEnvUp testState "http://localhost:11434"
      [some "Hel", none, some "lo"] " " "sys" (by decide) rfl).2 1 (by decide),
    rfl⟩

/-- Claim C9: an empty system prompt is omitted from the server request
(sent as no-instruction, `none`), while a non-empty system prompt is passed
through unchanged. -/
theorem generate_system_prompt_omission (env : Env) (stream : StreamOutcome)
    (s : SessionState) (c up sp : String)
    (hup : up ≠ "") (hc : s.ollama_client = some c) :
    (sp = "" → (generate_ollama_response env stream s up sp).request =
        some { model := s.ollama_model, prompt := up, system := none, stream := true }) ∧
    (sp ≠ "" → (generate_ollama_response env stream s up sp).request =
        some { model := s.ollama_model, prompt := up, system := some sp, stream := true }) := by
  cases stream <;> constructor <;> intro hsp <;>
    simp [generate_ollama_response, hup, hc, hsp]

theorem generate_system_prompt_omission_witness :
    (" " : String) ≠ "" ∧
    testState.ollama_client = some "http://localhost:11434" ∧
    (generate_ollama_response testEnvUp (.ok []) testState " " "").request =
      some { model := testState.ollama_model, prompt := " ", system := none, stream := true } ∧
    (generate_ollama_response testEnvUp (.ok []) testState " " "be brief").request =
      some { model := testState.ollama_model, prompt := " ", system := some "be brief", stream := true } :=
  ⟨by decide, rfl,
    (generate_system_prompt_omission testEnvUp (.ok []) testState
      "http://localhost:11434" " " "" (by decide) rfl).1 rfl,
    (generate_system_prompt_omission testEnvUp (.ok []) testState
      "http://localhost:11434" " " "be brief" (by decide) rfl).2 (by decide)⟩

/-- Claim C10: the emptiness guard rejects only the empty string — any
non-empty user prompt, including one made only of whitespace, produces no
warning and reaches the network generation call exactly once. -/
theorem generate_whitespace_prompt_proceeds (env : Env) (stream : StreamOutcome)
    (s : SessionState) (c up sp : String)
    (hup : up ≠ "") (hc : s.ollama_client = some c) :
    (generate_ollama_response env stream s up sp).warning = none ∧
    (generate_ollama_response env stream s up sp).genCalls = 1 := by
  cases stream <;> simp [generate_ollama_response, hup, hc]

theorem generate_whitespace_prompt_proceeds_witness :
    (" " : String) ≠ "" ∧
    testState.ollama_client = some "http://localhost:11434" ∧
    ((generate_ollama_response testEnvUp (.ok [some "hi"]) testState " " "sys").warning = none ∧
     (generate_ollama_response testEnvUp (.ok [some "hi"]) testState " " "sys").genCalls = 1) :=
  ⟨by decide, rfl,
    generate_whitespace_prompt_proceeds testEnvUp (.ok [some "hi"]) testState
      "http://localhost:11434" " " "sys" (by decide) rfl⟩

/-- Claim C5: for a file whose lowercased extension is in the plain-text
allow-list, `read_document_content` returns the UTF-8 decoded string
unchanged when decoding succeeds, and a decode error with no text when the
bytes are not valid UTF-8. -/
theorem read_text_decode (env : Env) (name : String) (bytes : List Nat)
    (hext : lowerExt name ∈ text_extensions) :
    (∀ s, env.decodeUtf8 bytes = some s →
        read_document_content env name bytes =
          { text := some s, errorMsg := none, warningMsg := none }) ∧
    (env.decodeUtf8 bytes = none →
        read_document_content env name bytes =
          { text := none
            errorMsg := some ("Error reading text-based content: "
              ++ env.decodeErr bytes)
            warningMsg := none }) := by
  constructor
  · intro s hdec
    unfold read_document_content readByExt
    rw [if_pos hext, hdec]
  · intro hdec
    unfold read_document_content readByExt
    rw [if_pos hext, hdec]

theorem read_text_decode_witness :
    lowerExt "Notes.TXT" ∈ text_extensions ∧
    read_document_content testEnvUp "Notes.TXT" [104] =
      { text := some "hello", errorMsg := none, warningMsg := none } ∧
    read_document_content testEnvDown "Notes.TXT" [255] =
      { text := none
        errorMsg := some ("Error reading text-based content: "
          ++ testEnvDown.decodeErr [255])
        warningMsg := none } :=
  ⟨by decide,
    (read_text_decode testEnvUp "Notes.TXT" [104] (by decide)).1 "hello" rfl,
    (read_text_decode testEnvDown "Notes.TXT" [255] (by decide)).2 rfl⟩

/-- Claim C4: for a file with extension `.pdf`, `read_document_content`
returns the concatenation of the extracted text of every page in page order
with no added separators; if the PDF parse fails, or any page extraction
fails, it returns an error and no text at all — no partial concatenation. -/
theorem read_pdf_concat_or_error (env : Env) (name : String) (bytes : List Nat)
    (hext : lowerExt name = ".pdf") :
    (∀ texts : List String, env.pdfParse bytes = .ok (texts.map Except.ok) →
        read_document_content env name bytes =
          { text := some (String.join texts), errorMsg := none, warningMsg := none }) ∧
    (∀ e, env.pdfParse bytes = .error e →
        read_document_content env name bytes =
          { text := none
            errorMsg := some ("Error reading PDF content: " ++ e)
            warningMsg := none }) ∧
    (∀ (pre : List String) (e : String) (post : List (Except String String)),
        env.pdfParse bytes = .ok (pre.map Except.ok ++ .error e :: post) →
        read_document_content env name bytes =
          { text := none
            errorMsg := some ("Error reading PDF content: " ++ e)
            warningMsg := none }) := by
  have hnotext : ".pdf" ∉ text_extensions := by decide
  refine ⟨?_, ?_, ?_⟩
  · intro texts hparse
    simp [read_document_content, readByExt, hext, hnotext, hparse,
      extractPages_all_ok, join_eq_foldl]
  · intro e hparse
    simp [read_document_content, readByExt, hext, hnotext, hparse]
  · intro pre e post hparse
    simp [read_document_content, readByExt, hext, hnotext, hparse,
      extractPages_stops_at_error]

theorem read_pdf_concat_or_error_witness :
    lowerExt "Report.PDF" = ".pdf" ∧
    read_document_content testEnvUp "Report.PDF" [1] =
      { text := some (String.join ["page one ", "page two"])
        errorMsg := none
        warningMsg := none } ∧
    read_document_content testEnvDown "Report.PDF" [1] =
      { text := none
        errorMsg := some ("Error reading PDF content: " ++ "bad pdf")
        warningMsg := none } :=
  ⟨by decide,
    (read_pdf_concat_or_error testEnvUp "Report.PDF" [1] (by decide)).1
      ["page one ", "page two"] rfl,
    (read_pdf_concat_or_error testEnvDown "Report.PDF" [1] (by decide)).2.1
      "bad pdf" rfl⟩

/-- Claim C6: `read_document_content` classifies a file only by its
lowercased extension (so case-insensitively), returns no text and an
unsupported-type warning for every extension outside the allow-list plus
`.pdf`, and that warning names every allowed extension. -/
theorem read_unsupported_ext :
    (∀ (env : Env) (n1 n2 : String) (bytes : List Nat),
        lowerExt n1 = lowerExt n2 →
        read_document_content env n1 bytes = read_document_content env n2 bytes) ∧
    (∀ (env : Env) (name : String) (bytes : List Nat),
        lowerExt name ∉ text_extensions → lowerExt name ≠ ".pdf" →
        read_document_content env name bytes =
          { text := none, errorMsg := none, warningMsg := some unsupportedMsg }) ∧
    ((".pdf" :: text_extensions).all
        (fun e => containsSub (lowerStr (extName e)).toList
          (lowerStr unsupportedMsg).toList) = true) := by
  refine ⟨?_, ?_, by decide⟩
  · intro env n1 n2 bytes h
    unfold read_document_content
    rw [h]
  · intro env name bytes h1 h2
    unfold read_document_content readByExt
    rw [if_neg h1, if_neg h2]

theorem read_unsupported_ext_witness :
    lowerExt "image.png" ∉ text_extensions ∧
    lowerExt "image.png" ≠ ".pdf" ∧
    lowerExt "IMAGE.PNG" = lowerExt "image.png" ∧
    read_document_content testEnvUp "IMAGE.PNG" [7] =
      read_document_content testEnvUp "image.png" [7] ∧
    read_document_content testEnvUp "image.png" [7] =
      { text := none, errorMsg := none, warningMsg := some unsupportedMsg } :=
  ⟨by decide, by decide, by decide,
    read_unsupported_ext.1 testEnvUp "IMAGE.PNG" "image.png" [7] (by decide),
    read_unsupported_ext.2.1 testEnvUp "image.png" [7] (by decide) (by decide)⟩
